import Mathlib

/-!
# Verification of the streamlit_llamaindex_workflows repository

Shallow embedding, in Lean 4, of the workflow code of the repository
`aierteam/streamlit_llamaindex_workflows`, together with theorems settling the
frozen claims about it.

The repository wires a retrieval pipeline, an LLM client and a web UI.  External
effects (the hosted LLM, the vector index, the SQL server, the tokenizer, the
document readers) are modelled as explicit oracle parameters; the repository's
own control flow, string manipulation, event plumbing and record updates are
translated from the source.

Source files embedded here:
* `src/sql_workflow/sql_workflow.py`     (SimpleSqlDBWorkflow)
* `src/WikipediaRAGWorkflow.py` and `src/kb_workflow/WikipediaRAGWorkflow.py`
  (RAGWorkflow: ingest / retrieve / rerank / synthesize)
* `src/school_workflow/admission_workflow.py` (AdmissionWorkflow)
* `src/school_workflow/app.py`           (school dashboard processing block)
-/

namespace StreamlitWorkflows

/-! ## SQL workflow (`src/sql_workflow/sql_workflow.py`) -/

/-- `ReferenceInfo` (sql_workflow.py lines 31-33): the generated SQL text and
the target database name attached to a response. -/
structure ReferenceInfo where
  sql_query : Option String
  sql_database_name : Option String
deriving DecidableEq, Repr

/-- `CommonStopEvent` (sql_workflow.py lines 46-48). -/
structure CommonStopEvent where
  response : String
  reference : Option ReferenceInfo
deriving DecidableEq, Repr

/-- `SQLEvent` (sql_workflow.py lines 41-43). -/
structure SQLEvent where
  sql : String
  query : String
deriving DecidableEq, Repr

/-- A character counts for the regex word boundary `\b` exactly when it is
alphanumeric or an underscore. -/
def isWordChar (c : Char) : Bool := c.isAlphanum || c == '_'

/-- Condition at the start of a match of `(?<!\[)\bT\b(?!\])`: the character
before the match (`none` at the start of the string) is not a word character
(the boundary, since the table names consist of word characters) and is not
`[` (the negative lookbehind). -/
def matchStartOk (prev : Option Char) : Bool :=
  match prev with
  | none => true
  | some c => !isWordChar c && !(c == '[')

/-- Condition after a match of `(?<!\[)\bT\b(?!\])`: the next character (if
any) is not a word character (the boundary) and is not `]` (the negative
lookahead). -/
def matchEndOk (rest : List Char) : Bool :=
  match rest with
  | [] => true
  | c :: _ => !isWordChar c && !(c == ']')

/-- One `re.sub` pass replacing every match of `(?<!\[)\bpat\b(?!\])` by
`[pat]`, scanning the original characters left to right and continuing after
each match, as Python's `re.sub` does.  `prev` is the original character
just before the current position; `fuel` starts at the length of the string,
which bounds the number of recursion steps since every step consumes at least
one character. -/
def subWordFuel (pat : List Char) : Nat → Option Char → List Char → List Char
  | 0, _, s => s
  | Nat.succ fuel, prev, s =>
    match s with
    | [] => []
    | c :: rest =>
      if !pat.isEmpty && pat.isPrefixOf (c :: rest) && matchStartOk prev
          && matchEndOk ((c :: rest).drop pat.length) then
        '[' :: (pat ++ ']' :: subWordFuel pat fuel (some (pat.getLastD ' '))
          ((c :: rest).drop pat.length))
      else
        c :: subWordFuel pat fuel (some c) rest

/-- `re.sub(rf"(?<!\[)\b{table_name}\b(?!\])", f"[{table_name}]", sql)`
(sql_workflow.py lines 126-127). -/
def reSubWordBracket (tableName s : String) : String :=
  String.mk (subWordFuel tableName.data s.data.length none s.data)

/-- One `re.sub` pass replacing every occurrence of the literal `pat` by
`repl`, scanning left to right and continuing after each match. -/
def subLitFuel (pat repl : List Char) : Nat → List Char → List Char
  | 0, s => s
  | Nat.succ fuel, s =>
    match s with
    | [] => []
    | c :: rest =>
      if !pat.isEmpty && pat.isPrefixOf (c :: rest) then
        repl ++ subLitFuel pat repl fuel ((c :: rest).drop pat.length)
      else
        c :: subLitFuel pat repl fuel rest

/-- `re.sub(rf"\[{table_name}\]", f"[Sales].[{table_name}]", full_sql)`
(sql_workflow.py lines 132-133): the pattern is a literal once the regex
escapes are resolved. -/
def reSubLit (pat repl s : String) : String :=
  String.mk (subLitFuel pat.data repl.data s.data.length s.data)

/-- `table_names = ["SalesOrderHeader", "SalesOrderDetail", "Customer"]`
(sql_workflow.py line 122). -/
def sqlTableNames : List String := ["SalesOrderHeader", "SalesOrderDetail", "Customer"]

/-- The bracketing loop of `execute_sql` (sql_workflow.py lines 121-127):
each known table name, at word boundaries and not already bracketed, is
wrapped in square brackets. -/
def bracketTables (sql : String) : String :=
  sqlTableNames.foldl (fun s t => reSubWordBracket t s) sql

/-- The schema-prefix loop of `execute_sql` (sql_workflow.py lines 129-133):
each bracketed table name is prefixed with `[Sales].`. -/
def addSchemaQualifier (sql : String) : String :=
  sqlTableNames.foldl
    (fun s t => reSubLit ("[" ++ t ++ "]") ("[Sales].[" ++ t ++ "]") s) sql

/-- `full_sql` as computed by `execute_sql` from the incoming `ev.sql`:
bracket the table names, then schema-qualify them. -/
def fullSql (sql : String) : String := addSchemaQualifier (bracketTables sql)

/-- The template `response_synthesis_prompt` (sql_workflow.py lines 253-260)
applied to its three arguments, as `format_messages(sql_query=...,
context_str=..., query_str=...)` does at lines 148-152. -/
def responseSynthesisPrompt (queryStr sqlQuery contextStr : String) : String :=
  "Given an input question, synthesize a response from the query results.\n\n        Query: "
    ++ queryStr ++ "\n        SQL: " ++ sqlQuery ++ "\n        SQL Response: "
    ++ contextStr ++ "\n        Response:"

/-- The external effects used by `execute_sql`, as oracle parameters:
* `retrieveStr sql` models `str(self.sql_retriever.retrieve(sql))`; an
  `Except.error e` models the SQL execution raising an exception whose
  `str()` is `e`.
* `tokenCount` models `count_tokens` (sql_workflow.py lines 63-65), i.e. the
  length of the gpt-4o `tiktoken` encoding of a string.
* `chat prompt` models `self.llm.chat` on the formatted synthesis prompt,
  returning the message content; `Except.error e` models the call raising. -/
structure SqlOracles where
  retrieveStr : String → Except String String
  tokenCount : String → Nat
  chat : String → Except String String

/-- The `execute_sql` step (sql_workflow.py lines 118-169).  `dbName` models
`self.sql_database.engine.url.database`.  The whole body after the
sanitization is wrapped in `try/except Exception`, which the `Except` matches
reflect, so the Lean function is total exactly as the Python step never
propagates an exception. -/
def execute_sql (o : SqlOracles) (dbName : String) (ev : SQLEvent) : CommonStopEvent :=
  let sql := bracketTables ev.sql
  let full_sql := addSchemaQualifier sql
  match o.retrieveStr sql with
  | Except.error e =>
    { response := "SQL execution error: " ++ e
      reference := some { sql_query := some full_sql, sql_database_name := some dbName } }
  | Except.ok result_str =>
    if 8000 < o.tokenCount result_str then
      { response := "Result too long. Please run this SQL manually."
        reference := some { sql_query := some full_sql, sql_database_name := some dbName } }
    else
      match o.chat (responseSynthesisPrompt ev.query full_sql result_str) with
      | Except.ok msg =>
        { response := msg
          reference := some { sql_query := some full_sql, sql_database_name := some dbName } }
      | Except.error e =>
        { response := "SQL execution error: " ++ e
          reference := some { sql_query := some full_sql, sql_database_name := some dbName } }

end StreamlitWorkflows

namespace StreamlitWorkflows

/-! ### Theorems about `execute_sql` -/

/-- C2: the `execute_sql` step never raises: it is a total function, and
whenever executing the generated SQL raises an exception with text `e`, the
step returns a `CommonStopEvent` whose response is `"SQL execution error: "`
followed by `e` and which still carries a `ReferenceInfo` with the
schema-qualified SQL text and the database name. -/
theorem execute_sql_catches_exceptions (o : SqlOracles) (dbName : String) (ev : SQLEvent)
    (e : String) (h : o.retrieveStr (bracketTables ev.sql) = Except.error e) :
    execute_sql o dbName ev =
      { response := "SQL execution error: " ++ e
        reference := some { sql_query := some (fullSql ev.sql)
                            sql_database_name := some dbName } } := by
  unfold execute_sql fullSql
  dsimp only
  rw [h]

/-- Concrete oracle set in which SQL execution raises. -/
def failingSqlOracles : SqlOracles :=
  { retrieveStr := fun _ => Except.error "boom"
    tokenCount := fun _ => 0
    chat := fun _ => Except.ok "SUMMARY" }

/-- Witness for C2 at a concrete input: with an oracle whose SQL execution
raises `boom`, the step returns the error event with the reference intact. -/
theorem execute_sql_catches_exceptions_witness :
    failingSqlOracles.retrieveStr (bracketTables "SELECT 1") = Except.error "boom" ∧
    execute_sql failingSqlOracles "AdventureWorksLT2022" { sql := "SELECT 1", query := "q" } =
      { response := "SQL execution error: " ++ "boom"
        reference := some { sql_query := some (fullSql "SELECT 1")
                            sql_database_name := some "AdventureWorksLT2022" } } :=
  ⟨rfl, execute_sql_catches_exceptions failingSqlOracles "AdventureWorksLT2022"
    { sql := "SELECT 1", query := "q" } "boom" rfl⟩

/-- C7: every `CommonStopEvent` returned by `execute_sql` — success branch,
oversized-result branch and exception branch alike — carries a
`ReferenceInfo` whose `sql_query` is the schema-qualified generated SQL and
whose `sql_database_name` is the target database name.  (The response field
is computed independently in each branch and never mentions the reference.) -/
theorem execute_sql_reference_always_attached (o : SqlOracles) (dbName : String)
    (ev : SQLEvent) :
    (execute_sql o dbName ev).reference =
      some { sql_query := some (fullSql ev.sql), sql_database_name := some dbName } := by
  unfold execute_sql fullSql
  dsimp only
  rcases hres : o.retrieveStr (bracketTables ev.sql) with e | rs
  · rfl
  · dsimp only
    split
    · rfl
    · rcases hc : o.chat (responseSynthesisPrompt ev.query (addSchemaQualifier (bracketTables ev.sql)) rs)
        with e | msg <;> simp [hc]

/-- C10: when the stringified rows exceed 8000 tokens under the gpt-4o
tokenizer, `execute_sql` skips synthesis and returns the fixed
"Result too long." response, with the reference carrying the full SQL and the
database name. -/
theorem execute_sql_result_too_long (o : SqlOracles) (dbName : String) (ev : SQLEvent)
    (rs : String) (hr : o.retrieveStr (bracketTables ev.sql) = Except.ok rs)
    (ht : 8000 < o.tokenCount rs) :
    execute_sql o dbName ev =
      { response := "Result too long. Please run this SQL manually."
        reference := some { sql_query := some (fullSql ev.sql)
                            sql_database_name := some dbName } } := by
  unfold execute_sql fullSql
  dsimp only
  rw [hr]
  simp only [if_pos ht]

/-- Concrete oracle set in which execution succeeds but the stringified rows
count as more than 8000 tokens. -/
def oversizedSqlOracles : SqlOracles :=
  { retrieveStr := fun _ => Except.ok "ROWS"
    tokenCount := fun _ => 8001
    chat := fun _ => Except.ok "SUMMARY" }

/-- Witness for C10 at a concrete input. -/
theorem execute_sql_result_too_long_witness :
    oversizedSqlOracles.retrieveStr (bracketTables "SELECT 1") = Except.ok "ROWS" ∧
    8000 < oversizedSqlOracles.tokenCount "ROWS" ∧
    execute_sql oversizedSqlOracles "AdventureWorksLT2022" { sql := "SELECT 1", query := "q" } =
      { response := "Result too long. Please run this SQL manually."
        reference := some { sql_query := some (fullSql "SELECT 1")
                            sql_database_name := some "AdventureWorksLT2022" } } :=
  ⟨rfl, by decide,
    execute_sql_result_too_long oversizedSqlOracles "AdventureWorksLT2022"
      { sql := "SELECT 1", query := "q" } "ROWS" rfl (by decide)⟩

/-- C3, counterexample: a run in which the generated SQL executes successfully
(the retriever returns rows `"ROWS"`), the language model's synthesis would be
`"SUMMARY"` on every prompt, and yet the response of the returned event is the
fixed "Result too long." string, not the model's synthesis — because the
stringified rows exceed 8000 tokens.  So it is not true that every successful
execution is followed by a synthesis of the result set. -/
theorem execute_sql_not_always_synthesized :
    oversizedSqlOracles.retrieveStr (bracketTables "SELECT 1") = Except.ok "ROWS" ∧
    oversizedSqlOracles.chat
      (responseSynthesisPrompt "q" (fullSql "SELECT 1") "ROWS") = Except.ok "SUMMARY" ∧
    (execute_sql oversizedSqlOracles "AdventureWorksLT2022"
      { sql := "SELECT 1", query := "q" }).response =
        "Result too long. Please run this SQL manually." ∧
    "Result too long. Please run this SQL manually." ≠ "SUMMARY" := by
  refine ⟨rfl, rfl, ?_, by decide⟩
  rw [execute_sql_result_too_long oversizedSqlOracles "AdventureWorksLT2022"
    { sql := "SELECT 1", query := "q" } "ROWS" rfl (by decide)]

/-- C3, amended: when the generated SQL executes successfully, the stringified
rows are within the 8000-token limit, and the synthesis call itself succeeds,
the response of the returned `CommonStopEvent` is the language model's
synthesis over the user query, the schema-qualified SQL text and the
stringified result rows. -/
theorem execute_sql_synthesizes_within_limit (o : SqlOracles) (dbName : String)
    (ev : SQLEvent) (rs msg : String)
    (hr : o.retrieveStr (bracketTables ev.sql) = Except.ok rs)
    (ht : o.tokenCount rs ≤ 8000)
    (hc : o.chat (responseSynthesisPrompt ev.query (fullSql ev.sql) rs) = Except.ok msg) :
    execute_sql o dbName ev =
      { response := msg
        reference := some { sql_query := some (fullSql ev.sql)
                            sql_database_name := some dbName } } := by
  unfold execute_sql
  dsimp only
  rw [hr]
  simp only [if_neg (Nat.not_lt.mpr ht)]
  unfold fullSql at hc
  rw [hc]
  rfl

/-- Concrete oracle set for the amended C3: execution succeeds, the result is
small, the model answers `"SUMMARY"`. -/
def okSqlOracles : SqlOracles :=
  { retrieveStr := fun _ => Except.ok "ROWS"
    tokenCount := fun _ => 10
    chat := fun _ => Except.ok "SUMMARY" }

/-- Witness for the amended C3 at a concrete input. -/
theorem execute_sql_synthesizes_within_limit_witness :
    okSqlOracles.retrieveStr (bracketTables "SELECT 1") = Except.ok "ROWS" ∧
    okSqlOracles.tokenCount "ROWS" ≤ 8000 ∧
    okSqlOracles.chat (responseSynthesisPrompt "q" (fullSql "SELECT 1") "ROWS") =
      Except.ok "SUMMARY" ∧
    execute_sql okSqlOracles "AdventureWorksLT2022" { sql := "SELECT 1", query := "q" } =
      { response := "SUMMARY"
        reference := some { sql_query := some (fullSql "SELECT 1")
                            sql_database_name := some "AdventureWorksLT2022" } } :=
  ⟨rfl, by decide, rfl,
    execute_sql_synthesizes_within_limit okSqlOracles "AdventureWorksLT2022"
      { sql := "SELECT 1", query := "q" } "ROWS" "SUMMARY" rfl (by decide) rfl⟩

/-! ## RAG workflow event graph (`src/WikipediaRAGWorkflow.py`,
`src/kb_workflow/WikipediaRAGWorkflow.py`)

Both `RAGWorkflow` classes declare the same four steps with the same event
types; the framework dispatches each pending event to the unique step whose
parameter type matches it.  `EvTy` lists those event types and `RagStep` the
steps; `consumes` records each step's input event type from its signature and
`emits` the event types the step's body can actually return (a `return None`
produces no event — `mayReturnNone` records which bodies have such a branch;
in the kb variant the annotation of `retrieve` also mentions `StopEvent`, but
the branch returning it is commented out in the source, lines 68-78). -/

/-- The event types of the RAG workflows: `StartEvent`, `IngestEvent`,
`RetrieverEvent`, `RerankEvent`, `StopEvent`. -/
inductive EvTy where
  | start
  | ingestEv
  | retrieverEv
  | rerankEv
  | stop
deriving DecidableEq, Repr

/-- The four steps of `RAGWorkflow`. -/
inductive RagStep where
  | ingest
  | retrieve
  | rerank
  | synthesize
deriving DecidableEq, Repr

/-- The event type each step consumes, from the step signatures
(WikipediaRAGWorkflow.py lines 25, 53, 65, 77). -/
def consumes : RagStep → EvTy
  | RagStep.ingest => EvTy.start
  | RagStep.retrieve => EvTy.ingestEv
  | RagStep.rerank => EvTy.retrieverEv
  | RagStep.synthesize => EvTy.rerankEv

/-- The event types each step's body can return (ignoring the `None`
returns), from the `return` statements of the step bodies. -/
def emits : RagStep → List EvTy
  | RagStep.ingest => [EvTy.ingestEv]
  | RagStep.retrieve => [EvTy.retrieverEv]
  | RagStep.rerank => [EvTy.rerankEv]
  | RagStep.synthesize => [EvTy.stop]

/-- Whether the step body has a `return None` branch: `ingest` (missing
query, or empty Wikipedia search) and `retrieve` (missing query or index)
do; `rerank` and `synthesize` always return an event. -/
def mayReturnNone : RagStep → Bool
  | RagStep.ingest => true
  | RagStep.retrieve => true
  | RagStep.rerank => false
  | RagStep.synthesize => false

/-- The framework's per-request scheduling, restricted to this workflow:
from a pending event `e`, a `StopEvent` ends the run; otherwise the unique
step consuming `e` fires, and either returns `None` (possible only when its
body has such a branch), ending the run, or emits one of its possible output
events, which becomes the next pending event.  `RunFrom e tr` says `tr` is
the sequence of steps fired in a (complete) run whose pending event is `e`. -/
inductive RunFrom : EvTy → List RagStep → Prop where
  | stopped : RunFrom EvTy.stop []
  | halt (s : RagStep) (e : EvTy) (hc : consumes s = e) (hn : mayReturnNone s = true) :
      RunFrom e [s]
  | fire (s : RagStep) (e e' : EvTy) (hc : consumes s = e) (he : e' ∈ emits s)
      {tr : List RagStep} (hr : RunFrom e' tr) : RunFrom e (s :: tr)

/-- The step sequences a run can still perform from each pending event
type. -/
def allowedTraces : EvTy → List (List RagStep)
  | EvTy.start =>
      [[RagStep.ingest],
       [RagStep.ingest, RagStep.retrieve],
       [RagStep.ingest, RagStep.retrieve, RagStep.rerank, RagStep.synthesize]]
  | EvTy.ingestEv =>
      [[RagStep.retrieve],
       [RagStep.retrieve, RagStep.rerank, RagStep.synthesize]]
  | EvTy.retrieverEv => [[RagStep.rerank, RagStep.synthesize]]
  | EvTy.rerankEv => [[RagStep.synthesize]]
  | EvTy.stop => [[]]

/-- Every run from a pending event performs one of the step sequences of
`allowedTraces`. -/
theorem runFrom_mem_allowedTraces {e : EvTy} {tr : List RagStep} (h : RunFrom e tr) :
    tr ∈ allowedTraces e := by
  induction h with
  | stopped => simp [allowedTraces]
  | halt s e hc hn =>
    subst hc
    cases s <;> simp_all [consumes, mayReturnNone, allowedTraces]
  | fire s e e' hc he hr ih =>
    subst hc
    cases s with
    | ingest =>
      simp only [emits, List.mem_singleton] at he
      subst he
      simp only [allowedTraces, consumes, List.mem_cons, List.not_mem_nil, or_false] at ih ⊢
      rcases ih with h1 | h1 <;> subst h1 <;> simp
    | retrieve =>
      simp only [emits, List.mem_singleton] at he
      subst he
      simp only [allowedTraces, consumes, List.mem_cons, List.not_mem_nil, or_false] at ih ⊢
      subst ih
      simp
    | rerank =>
      simp only [emits, List.mem_singleton] at he
      subst he
      simp only [allowedTraces, consumes, List.mem_cons, List.not_mem_nil, or_false] at ih ⊢
      subst ih
      simp
    | synthesize =>
      simp only [emits, List.mem_singleton] at he
      subst he
      simp only [allowedTraces, consumes, List.mem_cons, List.not_mem_nil, or_false] at ih ⊢
      subst ih
      simp

/-- C1: in every run of the RAG workflow the executed step sequence is
`[ingest]`, `[ingest, retrieve]`, or the full
`[ingest, retrieve, rerank, synthesize]` — so the steps always run in that
fixed linear order and none runs more than once per request — and, over the
workflow's step graph, `ingest` is the only consumer of `StartEvent` and the
sole producer of `IngestEvent`, `retrieve` the only consumer of `IngestEvent`
and sole producer of `RetrieverEvent`, `rerank` the only consumer of
`RetrieverEvent` and sole producer of `RerankEvent`, and `synthesize` the
only consumer of `RerankEvent` and the sole producer of the final
`StopEvent`. -/
theorem rag_pipeline_fixed_linear_order :
    (∀ tr : List RagStep, RunFrom EvTy.start tr →
      tr = [RagStep.ingest] ∨
      tr = [RagStep.ingest, RagStep.retrieve] ∨
      tr = [RagStep.ingest, RagStep.retrieve, RagStep.rerank, RagStep.synthesize]) ∧
    (∀ s, consumes s = EvTy.start ↔ s = RagStep.ingest) ∧
    (∀ s, EvTy.ingestEv ∈ emits s ↔ s = RagStep.ingest) ∧
    (∀ s, consumes s = EvTy.ingestEv ↔ s = RagStep.retrieve) ∧
    (∀ s, EvTy.retrieverEv ∈ emits s ↔ s = RagStep.retrieve) ∧
    (∀ s, consumes s = EvTy.retrieverEv ↔ s = RagStep.rerank) ∧
    (∀ s, EvTy.rerankEv ∈ emits s ↔ s = RagStep.rerank) ∧
    (∀ s, consumes s = EvTy.rerankEv ↔ s = RagStep.synthesize) ∧
    (∀ s, EvTy.stop ∈ emits s ↔ s = RagStep.synthesize) := by
  refine ⟨fun tr h => ?_, ?_, ?_, ?_, ?_, ?_, ?_, ?_, ?_⟩
  · have := runFrom_mem_allowedTraces h
    simpa [allowedTraces] using this
  all_goals intro s; cases s <;> simp [consumes, emits]

/-- Witness for C1: the run in which `ingest` finds no Wikipedia pages and
returns `None` fires exactly `[ingest]`, which is one of the three allowed
traces. -/
theorem rag_pipeline_fixed_linear_order_witness :
    [RagStep.ingest] = [RagStep.ingest] ∨
    [RagStep.ingest] = [RagStep.ingest, RagStep.retrieve] ∨
    [RagStep.ingest] = [RagStep.ingest, RagStep.retrieve, RagStep.rerank, RagStep.synthesize] :=
  rag_pipeline_fixed_linear_order.1 [RagStep.ingest]
    (RunFrom.halt RagStep.ingest EvTy.start rfl rfl)

/-! ## RAG workflow step bodies (`src/WikipediaRAGWorkflow.py`)

The step bodies, with the framework `Context` modelled as an association
list written by `ctx.set` and read by `ctx.get`, and the external library
calls (Wikipedia search and loading, embedding similarity, LLM rerank
scoring, answer synthesis) as oracle parameters. -/

/-- The workflow `Context` key/value store: `ctx.set` prepends, `ctx.get`
takes the most recent binding. -/
def Ctx : Type := List (String × String)

/-- `await ctx.set(key, value)`. -/
def ctxSet (c : Ctx) (k v : String) : Ctx := (k, v) :: c

/-- `await ctx.get(key, default=None)`, returning `none` when the key was
never set. -/
def ctxGet (c : Ctx) (k : String) : Option String :=
  (List.find? (fun p => p.1 == k) c).map (fun p => p.2)

/-- `NodeWithScore`: a chunk of source text with its similarity score
relative to the current query.  Scores are modelled as rationals. -/
structure NodeWithScore where
  text : String
  score : Rat
deriving DecidableEq, Repr

/-- Descending comparison by a rational-valued key: `keyGE key a b` holds
when `a`'s key is at least `b`'s, the order used to rank candidates by
score. -/
def keyGE {α : Type} (key : α → Rat) (a b : α) : Prop := key b ≤ key a

instance {α : Type} (key : α → Rat) : DecidableRel (keyGE key) :=
  fun a b => inferInstanceAs (Decidable (key b ≤ key a))

instance {α : Type} (key : α → Rat) : IsTotal α (keyGE key) :=
  ⟨fun a b => le_total (key b) (key a)⟩

instance {α : Type} (key : α → Rat) : IsTrans α (keyGE key) :=
  ⟨fun _ _ _ h1 h2 => le_trans h2 h1⟩

/-- Modelled from the spec: "Retriever: given a query, returns the top-K
most similar text units by vector similarity."  The vector index and the
embedding model are external library code
(`index.as_retriever(similarity_top_k=k).aretrieve(query)`); the index is
modelled as its list of text units and the similarity of a unit to the query
as the oracle `sim`.  The retriever scores every unit, sorts by descending
score and keeps the first `k`. -/
def vectorRetrieve (k : Nat) (sim : String → String → Rat) (q : String)
    (units : List String) : List NodeWithScore :=
  (List.insertionSort (keyGE NodeWithScore.score)
    (units.map (fun u => { text := u, score := sim q u }))).take k

/-- Modelled from the spec: "Reranker: asks a language model to re-score and
reduce the candidate set."  `LLMRerank(choice_batch_size=5, top_n=top_n)` is
external library code; the language model's relevance score for a candidate
is the oracle `relevance`, and the reranker keeps the `top_n` input nodes
with the highest relevance. -/
def llmRerankNodes (top_n : Nat) (relevance : NodeWithScore → Rat)
    (nodes : List NodeWithScore) : List NodeWithScore :=
  (List.insertionSort (keyGE relevance) nodes).take top_n

/-- `IngestEvent` (WikipediaRAGWorkflow.py lines 14-15): carries the vector
index, modelled as its list of text units. -/
structure IngestEvent where
  index : List String
deriving DecidableEq, Repr

/-- `RetrieverEvent` (lines 17-18). -/
structure RetrieverEvent where
  nodes : List NodeWithScore
deriving DecidableEq, Repr

/-- `RerankEvent` (lines 20-21). -/
structure RerankEvent where
  nodes : List NodeWithScore
deriving DecidableEq, Repr

/-- The external effects of the RAG workflow:
* `search q` models `wikipedia.search(q, results=10)`;
* `load page` models `WikipediaReader().load_data([page], lang_prefix="en")`,
  with `Except.error ()` modelling a `PageError` (the page is skipped);
* `sim q u` models the embedding similarity of unit `u` to query `q`;
* `llmScore q n` models the LLM rerank relevance of node `n` for query `q`
  (the query passed to `postprocess_nodes` may be `None`);
* `synth q nodes` models `CompactAndRefine(...).asynthesize(q, nodes)`. -/
structure RagOracles where
  search : String → List String
  load : String → Except Unit (List String)
  sim : String → String → Rat
  llmScore : Option String → NodeWithScore → Rat
  synth : Option String → List NodeWithScore → String

/-- The `ingest` step (WikipediaRAGWorkflow.py lines 24-50): if the start
event has no query, return `None`; otherwise write the query into the
context, search Wikipedia, return `None` on an empty result, else load the
pages (skipping the ones raising `PageError`), build the index, and emit an
`IngestEvent`. -/
def ingestStep (o : RagOracles) (ctx : Ctx) (evQuery : Option String) :
    Ctx × Option IngestEvent :=
  match evQuery with
  | none => (ctx, none)
  | some query =>
    let ctx1 := ctxSet ctx "query" query
    let pages := o.search query
    if pages.isEmpty then (ctx1, none)
    else
      let documents := pages.foldl
        (fun acc page =>
          match o.load page with
          | Except.ok doc => acc ++ doc
          | Except.error _ => acc) []
      (ctx1, some { index := documents })

/-- The `retrieve` step (lines 52-62): read the query back from the context;
if it is `None`, return `None` (the index carried by the event is always
present, the body's `index is None` test never fires); otherwise retrieve
the top 5 units by similarity. -/
def retrieveStep (o : RagOracles) (ctx : Ctx) (ev : IngestEvent) :
    Ctx × Option RetrieverEvent :=
  match ctxGet ctx "query" with
  | none => (ctx, none)
  | some q => (ctx, some { nodes := vectorRetrieve 5 o.sim q ev.index })

/-- The `rerank` step (lines 64-74): rerank the candidate nodes with
`LLMRerank(choice_batch_size=5, top_n=3)` against the query read from the
context. -/
def rerankStep (o : RagOracles) (ctx : Ctx) (ev : RetrieverEvent) :
    Ctx × RerankEvent :=
  (ctx, { nodes := llmRerankNodes 3 (o.llmScore (ctxGet ctx "query")) ev.nodes })

/-- The `synthesize` step (lines 76-83): synthesize the final answer from
the retained nodes and the query read from the context. -/
def synthesizeStep (o : RagOracles) (ctx : Ctx) (ev : RerankEvent) :
    Ctx × String :=
  (ctx, o.synth (ctxGet ctx "query") ev.nodes)

/-- A complete run of the RAG workflow from a fresh context, threading the
context through the four steps exactly as the scheduler does, and recording
the value of the `"query"` key as each of `retrieve`, `rerank` and
`synthesize` reads it. -/
def ragRun (o : RagOracles) (startQuery : Option String) :
    List (Option String) × Option String :=
  let s1 := ingestStep o [] startQuery
  match s1.2 with
  | none => ([], none)
  | some ie =>
    let q2 := ctxGet s1.1 "query"
    let s2 := retrieveStep o s1.1 ie
    match s2.2 with
    | none => ([q2], none)
    | some re =>
      let q3 := ctxGet s2.1 "query"
      let s3 := rerankStep o s2.1 re
      let q4 := ctxGet s3.1 "query"
      let s4 := synthesizeStep o s3.1 s3.2
      ([q2, q3, q4], some s4.2)

/-- Reading back the key just written into the context yields the written
value. -/
theorem ctxGet_ctxSet_same (c : Ctx) (k v : String) : ctxGet (ctxSet c k v) k = some v := by
  simp [ctxGet, ctxSet]

/-- The `ingest` step with a present query always leaves the context with
the query written under `"query"`, whether or not it emits an event. -/
theorem ingestStep_ctx_some (o : RagOracles) (ctx : Ctx) (q : String) :
    (ingestStep o ctx (some q)).1 = ctxSet ctx "query" q := by
  unfold ingestStep
  dsimp only
  split <;> rfl

/-- C4: whenever the `retrieve` step runs with a context holding a query
(and the index carried by the event), it emits a `RetrieverEvent` whose node
list is the top-5 text units by similarity to the query: the list is the
5-element descending-score head of the scored units, has at most 5 nodes,
and every node kept scores at least as high as every scored unit left out. -/
theorem retrieveStep_top5 (o : RagOracles) (ctx : Ctx) (ev : IngestEvent) (q : String)
    (hq : ctxGet ctx "query" = some q) :
    ∃ re : RetrieverEvent,
      retrieveStep o ctx ev = (ctx, some re) ∧
      re.nodes = vectorRetrieve 5 o.sim q ev.index ∧
      re.nodes.length ≤ 5 ∧
      (∀ a ∈ re.nodes,
        ∀ b ∈ ev.index.map (fun u => ({ text := u, score := o.sim q u } : NodeWithScore)),
          b ∉ re.nodes → b.score ≤ a.score) := by
  refine ⟨{ nodes := vectorRetrieve 5 o.sim q ev.index }, ?_, rfl, ?_, ?_⟩
  · unfold retrieveStep
    rw [hq]
  · exact List.length_take_le 5 (List.insertionSort (keyGE NodeWithScore.score)
      (ev.index.map (fun u => ({ text := u, score := o.sim q u } : NodeWithScore))))
  · intro a ha b hb hbn
    set scored := ev.index.map (fun u => ({ text := u, score := o.sim q u } : NodeWithScore))
      with hscored
    have hsorted : List.Sorted (keyGE NodeWithScore.score)
        (List.insertionSort (keyGE NodeWithScore.score) scored) :=
      List.sorted_insertionSort _ _
    have hb2 : b ∈ List.insertionSort (keyGE NodeWithScore.score) scored :=
      (List.mem_insertionSort _).mpr hb
    rw [← List.take_append_drop 5 (List.insertionSort (keyGE NodeWithScore.score) scored)]
      at hb2
    rcases List.mem_append.mp hb2 with h | h
    · exact absurd h hbn
    · exact hsorted.rel_of_mem_take_of_mem_drop ha h

/-- Concrete oracle set for the RAG workflow used by the witnesses. -/
def demoRagOracles : RagOracles :=
  { search := fun _ => ["page1"]
    load := fun _ => Except.ok ["doc1"]
    sim := fun _ _ => 1
    llmScore := fun _ _ => 1
    synth := fun _ _ => "answer" }

/-- Witness for C4 at a concrete input: one indexed unit, query `"q"`. -/
theorem retrieveStep_top5_witness :
    ctxGet [("query", "q")] "query" = some "q" ∧
    (∃ re : RetrieverEvent,
      retrieveStep demoRagOracles [("query", "q")] { index := ["doc1"] } =
        ([("query", "q")], some re) ∧
      re.nodes = vectorRetrieve 5 demoRagOracles.sim "q" ({ index := ["doc1"] } : IngestEvent).index ∧
      re.nodes.length ≤ 5 ∧
      (∀ a ∈ re.nodes,
        ∀ b ∈ (({ index := ["doc1"] } : IngestEvent)).index.map
            (fun u => ({ text := u, score := demoRagOracles.sim "q" u } : NodeWithScore)),
          b ∉ re.nodes → b.score ≤ a.score)) :=
  ⟨rfl, retrieveStep_top5 demoRagOracles [("query", "q")] { index := ["doc1"] } "q" rfl⟩

/-- C5: the `rerank` step re-scores the candidates with the language model
and reduces the set: it returns at most 3 nodes (`top_n = 3`), never more
nodes than it received, and every returned node comes from the input
candidate list. -/
theorem rerankStep_reduces (o : RagOracles) (ctx : Ctx) (ev : RetrieverEvent) :
    ((rerankStep o ctx ev).2).nodes.length ≤ 3 ∧
    ((rerankStep o ctx ev).2).nodes.length ≤ ev.nodes.length ∧
    ∀ n ∈ ((rerankStep o ctx ev).2).nodes, n ∈ ev.nodes := by
  refine ⟨?_, ?_, ?_⟩
  · exact List.length_take_le 3 _
  · calc ((rerankStep o ctx ev).2).nodes.length
        ≤ (List.insertionSort (keyGE (o.llmScore (ctxGet ctx "query"))) ev.nodes).length :=
          List.length_take_le' 3 _
      _ = ev.nodes.length := List.length_insertionSort _ _
  · intro n hn
    have hn2 : n ∈ List.insertionSort (keyGE (o.llmScore (ctxGet ctx "query"))) ev.nodes :=
      List.take_subset 3 _ hn
    exact (List.mem_insertionSort _).mp hn2

/-- C6: the query is immutable once issued.  `ingest` is the only step that
writes the `"query"` key (the other three return the context unchanged), and
in every run of the workflow each of `retrieve`, `rerank` and `synthesize`
reads back exactly the query supplied in the `StartEvent`. -/
theorem rag_query_immutable (o : RagOracles) (q : String) :
    (∀ ctx q0, (ingestStep o ctx (some q0)).1 = ctxSet ctx "query" q0) ∧
    (∀ ctx, (ingestStep o ctx none).1 = ctx) ∧
    (∀ ctx ev, (retrieveStep o ctx ev).1 = ctx) ∧
    (∀ ctx ev, (rerankStep o ctx ev).1 = ctx) ∧
    (∀ ctx ev, (synthesizeStep o ctx ev).1 = ctx) ∧
    (∀ obs res, ragRun o (some q) = (obs, res) → ∀ x ∈ obs, x = some q) := by
  refine ⟨fun ctx q0 => ingestStep_ctx_some o ctx q0, fun ctx => rfl, ?_, fun ctx ev => rfl,
    fun ctx ev => rfl, ?_⟩
  · intro ctx ev
    unfold retrieveStep
    cases h : ctxGet ctx "query" <;> rfl
  · intro obs res hrun x hx
    have hq1 : ctxGet (ingestStep o [] (some q)).1 "query" = some q := by
      rw [ingestStep_ctx_some o [] q]
      exact ctxGet_ctxSet_same [] "query" q
    rcases h2 : (ingestStep o [] (some q)).2 with _ | ie
    · unfold ragRun at hrun
      dsimp only at hrun
      rw [h2] at hrun
      dsimp only at hrun
      injection hrun with ho hr
      subst ho
      exact absurd hx (List.not_mem_nil x)
    · unfold ragRun at hrun
      dsimp only at hrun
      rw [h2] at hrun
      dsimp only at hrun
      unfold retrieveStep at hrun
      rw [hq1] at hrun
      dsimp only [rerankStep, synthesizeStep] at hrun
      injection hrun with ho hr
      subst ho
      simp only [List.mem_cons, List.not_mem_nil, or_false, hq1] at hx
      rcases hx with rfl | rfl | rfl <;> rfl

/-- Witness for C6 at a concrete run. -/
theorem rag_query_immutable_witness :
    ∀ x ∈ (ragRun demoRagOracles (some "q")).1, x = some "q" := by
  intro x hx
  exact (rag_query_immutable demoRagOracles "q").2.2.2.2.2
    (ragRun demoRagOracles (some "q")).1 (ragRun demoRagOracles (some "q")).2 rfl x hx

/-! ## Admission workflow (`src/school_workflow/admission_workflow.py`) -/

/-- The external effects of the admission workflow:
* `loadDoc path` models `SimpleDirectoryReader(input_files=[path]).load_data()`
  followed by taking `docs[0].text` — `none` when no document was loaded;
* `llmComplete prompt` models `self.llm.complete(prompt)`. -/
structure SchoolOracles where
  loadDoc : String → Option String
  llmComplete : String → String

/-- The document state of `AdmissionWorkflow` (admission_workflow.py lines
82-84), with documents represented by their text. -/
structure AdmissionState where
  transcript : Option String
  resume : Option String
  recommendation_letters : List String
deriving DecidableEq, Repr

/-- `AdmissionStartEvent` (lines 58-61). -/
structure AdmissionStartEvent where
  transcript_file_path : Option String
  resume_file_path : Option String
  recommendation_letter_file_path : Option (List String)
deriving DecidableEq, Repr

/-- Python truthiness of an optional string: `None` and the empty string are
falsy. -/
def truthyStr (p : Option String) : Option String :=
  match p with
  | none => none
  | some s => if s.isEmpty then none else some s

/-- The `upload_documents_step` (lines 111-122): load the transcript, the
resume and each recommendation letter whose path is given, keeping a letter
only when its reader returned a document (lines 178-188). -/
def upload_documents_step (o : SchoolOracles) (ev : AdmissionStartEvent) : AdmissionState :=
  { transcript := (truthyStr ev.transcript_file_path).bind o.loadDoc
    resume := (truthyStr ev.resume_file_path).bind o.loadDoc
    recommendation_letters :=
      (ev.recommendation_letter_file_path.getD []).filterMap o.loadDoc }

/-- `is_complete` (lines 148-154): a transcript and a resume were loaded and
at least two recommendation letters were loaded. -/
def is_complete (s : AdmissionState) : Bool :=
  s.transcript.isSome && s.resume.isSome && decide (2 ≤ s.recommendation_letters.length)

/-- The fallback texts of `analyze_application` / `reivew_application`
(lines 197-205, 225-233). -/
def transcript_text (s : AdmissionState) : String :=
  s.transcript.getD "No transcript provided."

/-- Resume text or its fallback. -/
def resume_text (s : AdmissionState) : String :=
  s.resume.getD "No resume provided."

/-- Joined recommendation-letter text or its fallback. -/
def recommendation_letters_text (s : AdmissionState) : String :=
  if s.recommendation_letters.isEmpty then "No recommendation letters provided."
  else String.intercalate "\n" s.recommendation_letters

/-- `analyze_application_template` (lines 28-40) applied to its fields. -/
def analyze_application_template (transcript resume letters : String) : String :=
  "You are an admissions officer reviewing student applications.\n    Analyze the following student application materials:\n\n    Transcript: "
    ++ transcript ++ "\n\n    Resume: " ++ resume ++ "\n\n    Recommendation Letters: "
    ++ letters
    ++ "\n\n    Provide a summary of the strengths and weaknesses of the application.\n    "

/-- `admission_requirement_template` (lines 43-55) applied to its fields. -/
def admission_requirement_template (req transcript resume letters : String) : String :=
  "You are an admissions officer.   \n    Review the following application materials and determine if they meet the admission requirements:\n        "
    ++ req ++ "\n    \n    Transcript: " ++ transcript ++ "\n\n    Resume: " ++ resume
    ++ "\n\n    Recommendation Letters: " ++ letters ++ "\n\n    "

/-- `analyze_application` (lines 190-216): format the analysis prompt from
the loaded materials and ask the language model. -/
def analyze_application (o : SchoolOracles) (s : AdmissionState) : String :=
  o.llmComplete (analyze_application_template (transcript_text s) (resume_text s)
    (recommendation_letters_text s))

/-- `reivew_application` (lines 218-246, name as in the source): format the
review prompt, including the configured admission requirements, and ask the
language model. -/
def reivew_application (o : SchoolOracles) (req : String) (s : AdmissionState) : String :=
  o.llmComplete (admission_requirement_template req (transcript_text s) (resume_text s)
    (recommendation_letters_text s))

/-- The filesystem, modelled as an association list from resolved path to
file content; a write shadows earlier content. -/
def Fs : Type := List (String × String)

/-- Writing a file. -/
def fsWrite (fs : Fs) (k v : String) : Fs := (k, v) :: fs

/-- Reading a file: `none` when the path does not exist. -/
def fsRead (fs : Fs) (k : String) : Option String :=
  (List.find? (fun p => p.1 == k) fs).map (fun p => p.2)

/-- Whether `p` starts with the literal `pre`, computed on the character
lists. -/
def strStarts (p pre : String) : Bool := pre.data.isPrefixOf p.data

/-- Resolution of the paths the Python code opens: a path starting with
`./` is relative to the current working directory; an absolute path stands
for itself; any other path is relative to the working directory. -/
def resolvePath (cwd p : String) : String :=
  if strStarts p "./" then cwd ++ "/" ++ String.mk (p.data.drop 2)
  else if strStarts p "/" then p
  else cwd ++ "/" ++ p

/-- Outcome of `analyze_application_step`: either a `ReviewApplicationEvent`
or a `StopEvent` carrying the analysis. -/
inductive AnalyzeOutcome where
  | review : AnalyzeOutcome
  | stop : String → AnalyzeOutcome
deriving DecidableEq, Repr

/-- The `analyze_application_step` (lines 124-135): compute the analysis,
store it in the context, write it to `./analysis_result.txt`, and emit a
`ReviewApplicationEvent` when the application is complete, else a
`StopEvent` with the analysis.  Returns (filesystem, context value of
`"analysis"`, outcome). -/
def analyze_application_step (o : SchoolOracles) (cwd : String) (fs : Fs)
    (s : AdmissionState) : Fs × String × AnalyzeOutcome :=
  let analysis := analyze_application o s
  let fs1 := fsWrite fs (resolvePath cwd "./analysis_result.txt") analysis
  if is_complete s then (fs1, analysis, AnalyzeOutcome.review)
  else (fs1, analysis, AnalyzeOutcome.stop analysis)

/-- The `review_application_step` (lines 137-146): compute the review, write
it to `./review_result.txt`, read the analysis back from the context and
return the combined final result. -/
def review_application_step (o : SchoolOracles) (cwd req : String) (fs : Fs)
    (s : AdmissionState) (ctxAnalysis : String) : Fs × String :=
  let review := reivew_application o req s
  let fs1 := fsWrite fs (resolvePath cwd "./review_result.txt") review
  (fs1, "Analysis:\n" ++ ctxAnalysis ++ "\n\nReview:\n" ++ review)

/-- A complete run of `AdmissionWorkflow`: upload the documents, analyze,
and review only when the analyze step emitted a `ReviewApplicationEvent`.
Returns the filesystem after the run and the final `StopEvent` result. -/
def admissionRun (o : SchoolOracles) (cwd req : String) (fs : Fs)
    (ev : AdmissionStartEvent) : Fs × String :=
  let s := upload_documents_step o ev
  let step1 := analyze_application_step o cwd fs s
  match step1.2.2 with
  | AnalyzeOutcome.stop r => (step1.1, r)
  | AnalyzeOutcome.review => review_application_step o cwd req step1.1 s step1.2.1

/-- C9: `analyze_application_step` emits a `ReviewApplicationEvent` exactly
when a transcript was loaded, a resume was loaded, and at least two
recommendation letters were loaded; when it does, the run's final result
combines the analysis and the review, and otherwise the run stops with just
the analysis and the review step never runs. -/
theorem analyze_step_gates_review (o : SchoolOracles) (cwd req : String) (fs : Fs)
    (ev : AdmissionStartEvent) :
    (((analyze_application_step o cwd fs (upload_documents_step o ev)).2.2 =
        AnalyzeOutcome.review) ↔
      ((upload_documents_step o ev).transcript ≠ none ∧
        (upload_documents_step o ev).resume ≠ none ∧
        2 ≤ (upload_documents_step o ev).recommendation_letters.length)) ∧
    ((analyze_application_step o cwd fs (upload_documents_step o ev)).2.2 =
        AnalyzeOutcome.review →
      (admissionRun o cwd req fs ev).2 =
        "Analysis:\n" ++ analyze_application o (upload_documents_step o ev) ++
          "\n\nReview:\n" ++ reivew_application o req (upload_documents_step o ev)) ∧
    ((analyze_application_step o cwd fs (upload_documents_step o ev)).2.2 ≠
        AnalyzeOutcome.review →
      (admissionRun o cwd req fs ev).2 =
        analyze_application o (upload_documents_step o ev)) := by
  set s := upload_documents_step o ev with hs
  have hcases :
      (analyze_application_step o cwd fs s).2.2 =
        (if is_complete s then AnalyzeOutcome.review
         else AnalyzeOutcome.stop (analyze_application o s)) := by
    unfold analyze_application_step
    dsimp only
    split <;> rfl
  refine ⟨?_, ?_, ?_⟩
  · rw [hcases]
    constructor
    · intro h
      by_cases hc : is_complete s = true
      · unfold is_complete at hc
        simp only [Bool.and_eq_true, Option.isSome_iff_ne_none, decide_eq_true_eq] at hc
        exact ⟨hc.1.1, hc.1.2, hc.2⟩
      · rw [if_neg hc] at h
        exact absurd h (by simp)
    · intro ⟨h1, h2, h3⟩
      have hc : is_complete s = true := by
        unfold is_complete
        simp only [Bool.and_eq_true, Option.isSome_iff_ne_none, decide_eq_true_eq]
        exact ⟨⟨h1, h2⟩, h3⟩
      rw [if_pos hc]
  · intro h
    unfold admissionRun
    dsimp only
    rw [← hs, h]
    unfold analyze_application_step review_application_step
    dsimp only
    split <;> rfl
  · intro h
    rw [hcases] at h
    by_cases hc : is_complete s = true
    · rw [if_pos hc] at h
      exact absurd rfl h
    · unfold admissionRun
      dsimp only
      rw [← hs, hcases, if_neg hc]

/-- Concrete oracle set for the school workflow used below: every path loads
a document with text `"DOC"`, and the language model always answers
`"GENERATED"`. -/
def demoSchoolOracles : SchoolOracles :=
  { loadDoc := fun _ => some "DOC"
    llmComplete := fun _ => "GENERATED" }

/-- A complete concrete start event. -/
def demoStartEvent : AdmissionStartEvent :=
  { transcript_file_path := some "/repo/school_workflow/data/transcript.pdf"
    resume_file_path := some "/repo/school_workflow/data/resume.docx"
    recommendation_letter_file_path :=
      some ["/repo/school_workflow/data/lr1.docx", "/repo/school_workflow/data/lr2.docx"] }

/-- Witness for C9 at a concrete complete application: the analyze step
emits the review event and the final result combines analysis and review. -/
theorem analyze_step_gates_review_witness :
    ((analyze_application_step demoSchoolOracles "/repo/school_workflow" []
        (upload_documents_step demoSchoolOracles demoStartEvent)).2.2 =
      AnalyzeOutcome.review) ∧
    (admissionRun demoSchoolOracles "/repo/school_workflow" "- GPA >= 3.0" []
        demoStartEvent).2 =
      "Analysis:\n" ++
        analyze_application demoSchoolOracles
          (upload_documents_step demoSchoolOracles demoStartEvent) ++
        "\n\nReview:\n" ++
        reivew_application demoSchoolOracles "- GPA >= 3.0"
          (upload_documents_step demoSchoolOracles demoStartEvent) := by
  have hrev := (analyze_step_gates_review demoSchoolOracles "/repo/school_workflow"
    "- GPA >= 3.0" [] demoStartEvent).1.mpr (by decide)
  exact ⟨hrev, (analyze_step_gates_review demoSchoolOracles "/repo/school_workflow"
    "- GPA >= 3.0" [] demoStartEvent).2.1 hrev⟩

/-! ## School dashboard processing block (`src/school_workflow/app.py`) -/

/-- An application record as created on submission (app.py lines 165-179). -/
structure ApplicationRecord where
  id : String
  student_name : String
  student_email : String
  student_id : String
  major : String
  submission_time : String
  status : String
  transcript_path : String
  resume_path : String
  letter_paths : List String
  analysis : Option String
  review : Option String
  processed : Bool
deriving DecidableEq, Repr

/-- The update block of the dashboard (app.py lines 359-363): mark the
record processed and reviewed and store the loaded analysis and review. -/
def processing_update (app : ApplicationRecord) (analysis review : Option String) :
    ApplicationRecord :=
  { app with processed := true, status := "Reviewed", analysis := analysis, review := review }

/-- `to_absolute_path` (app.py lines 318-321): a relative path is joined to
the script directory after stripping leading `.` and `/` characters
(`path.lstrip('./')`). -/
def to_absolute_path (scriptDir p : String) : String :=
  if strStarts p "/" then p
  else scriptDir ++ "/" ++ String.mk (p.data.dropWhile (fun c => c == '.' || c == '/'))

/-- The dashboard's processing of one queued application (app.py lines
302-364): find the record; if it exists and is unprocessed, run the
admission workflow on its (absolutized) document paths, load the analysis
and review from `SCRIPT_DIR/result/analysis_result.txt` and
`SCRIPT_DIR/result/review_result.txt` (lines 350-357), apply the update
block, and persist the whole applications list with `save_applications`
(lines 39-42, modelled by the third component holding the list written to
the data file).  Returns (filesystem, session applications, persisted
list). -/
def school_process_application (o : SchoolOracles) (cwd scriptDir req : String) (fs : Fs)
    (apps : List ApplicationRecord) (appId : String) :
    Fs × List ApplicationRecord × Option (List ApplicationRecord) :=
  match List.find? (fun a => a.id == appId) apps with
  | none => (fs, apps, none)
  | some app =>
    if app.processed then (fs, apps, none)
    else
      let ev : AdmissionStartEvent :=
        { transcript_file_path := some (to_absolute_path scriptDir app.transcript_path)
          resume_file_path := some (to_absolute_path scriptDir app.resume_path)
          recommendation_letter_file_path :=
            some (app.letter_paths.map (to_absolute_path scriptDir)) }
      let runOut := admissionRun o cwd req fs ev
      let analysis := fsRead runOut.1 (scriptDir ++ "/result/analysis_result.txt")
      let review := fsRead runOut.1 (scriptDir ++ "/result/review_result.txt")
      let app1 := processing_update app analysis review
      let apps1 := apps.map (fun a => if a.id == appId then app1 else a)
      (runOut.1, apps1, some apps1)

/-- A concrete submitted demo application (app.py lines 141-179). -/
def demoApp : ApplicationRecord :=
  { id := "APP-0001"
    student_name := "John Doe"
    student_email := "john.doe@email.com"
    student_id := "STU-2024-001"
    major := "Computer Science"
    submission_time := "2025-01-01 00:00:00"
    status := "Pending Review"
    transcript_path := "./data/transcript.pdf"
    resume_path := "./data/resume.docx"
    letter_paths := ["./data/lr1.docx", "./data/lr2.docx"]
    analysis := none
    review := none
    processed := false }

/-- C8, evaluation at a failing input: processing a complete, unprocessed
application from a fresh filesystem, with the dashboard started from the
script's own directory.  The admission workflow writes the generated
analysis to `<cwd>/analysis_result.txt` (admission_workflow.py line 130),
but the dashboard loads the record's analysis and review from
`<SCRIPT_DIR>/result/analysis_result.txt` and
`<SCRIPT_DIR>/result/review_result.txt` (app.py lines 350-351), paths the
workflow never writes.  So the persisted record has `processed = true`,
`status = "Reviewed"` and every identity field unchanged — but `analysis`
and `review` are `None` rather than the generated texts, contradicting the
claim that they receive the generated texts. -/
theorem school_processing_loses_generated_texts :
    fsRead (school_process_application demoSchoolOracles "/repo/school_workflow"
        "/repo/school_workflow" "- GPA >= 3.0" [] [demoApp] "APP-0001").1
      "/repo/school_workflow/analysis_result.txt" = some "GENERATED" ∧
    fsRead (school_process_application demoSchoolOracles "/repo/school_workflow"
        "/repo/school_workflow" "- GPA >= 3.0" [] [demoApp] "APP-0001").1
      "/repo/school_workflow/result/analysis_result.txt" = none ∧
    (school_process_application demoSchoolOracles "/repo/school_workflow"
        "/repo/school_workflow" "- GPA >= 3.0" [] [demoApp] "APP-0001").2.2 =
      some [{ demoApp with
                processed := true
                status := "Reviewed"
                analysis := none
                review := none }] := by
  refine ⟨by decide, by decide, by decide⟩

end StreamlitWorkflows
